import Mathlib

/-!
Verification of the simulation-agent coordination core.

This file gives a shallow embedding of the repository's decision
aggregator (`src/core/decision_aggregator.py`), its data model
(`src/core/schemas.py`) and the coordinator graph
(`src/orchestration/graph.py`), and proves or refutes the frozen
claims about them.

Modelling conventions:
- Python `float` fields (confidence, consensus, stability) are
  modelled as `ℚ`; `int` fields (risk scores, deltas) as `ℤ`.
- Pydantic field validation (`Field(..., ge, le, max_length)`) is
  modelled by a smart constructor returning `Except`; a failing
  validation is a `PyError.validationError`, mirroring the
  `ValidationError` pydantic raises at construction time.
- A Python `NameError` caused by reading a never-assigned local
  variable is modelled as `PyError.nameError` carrying the name.
- Fallible collaborator calls (LLM agents) are modelled as `Except`
  valued parameters; a raised exception is the `.error` case.
-/

/-- The five decision types of `DecisionType` in `core/schemas.py`. -/
inductive DecisionType where
  | APPROVE
  | REJECT
  | MODIFY
  | ESCALATE
  | ABORT
deriving DecidableEq, Repr

/-- Run statuses of `RunStatus` in `core/schemas.py`. -/
inductive RunStatus where
  | SUCCESS
  | PARTIAL_SUCCESS
  | DEGRADED_LLM
  | CONSTRAINT_BLOCKED
  | SIMULATION_INVALID
  | SYSTEM_ERROR
deriving DecidableEq, Repr

/-- `Decision` of `core/schemas.py` (the `meta` dict is omitted; it is
never read by the code under verification). -/
structure Decision where
  decision_type : DecisionType
  recommended_action : String
  confidence : ℚ
  risk_score : ℤ
  rationale_summary : List String
  assumptions : List String := []
deriving DecidableEq, Repr

/-- `AgentFault` of `core/schemas.py`. -/
structure AgentFault where
  fault_type : String
  agent : String
  step_id : String
  message : String
deriving DecidableEq, Repr

/-- `IntelligenceSignal` of `core/schemas.py`. -/
structure IntelligenceSignal where
  source_agent : String
  summary_points : List String
  confidence : ℚ
  inferred_risk_delta : ℤ
deriving DecidableEq, Repr

/-- `SpecialistDecision` of `core/schemas.py` (the trace / raw-output /
meta debugging fields are omitted; the aggregator never reads them). -/
structure SpecialistDecision where
  agent : String
  decision : Option Decision := none
  fault : Option AgentFault := none
  signal : Option IntelligenceSignal := none
deriving DecidableEq, Repr

/-- `CompositeDecision` of `core/schemas.py`. -/
structure CompositeDecision where
  primary_decision : Decision
  conflicts : List String
  consensus_score : ℚ
  specialist_decisions : List SpecialistDecision
deriving DecidableEq, Repr

/-- Runtime errors a Python evaluation of the aggregator or of a
coordinator node can raise: a `NameError` carrying the unassigned
local's name, a pydantic `ValidationError`, or a `KeyError` carrying
the missing state key read by subscript. -/
inductive PyError where
  | nameError (n : String)
  | validationError
  | keyError (n : String)
deriving DecidableEq, Repr

/-- Pydantic validation of `Decision` per `core/schemas.py`:
`confidence` in `[0,1]`, `risk_score` in `[0,10]`,
`rationale_summary` of length at most 3. -/
def Decision.isValid (d : Decision) : Bool :=
  decide (0 ≤ d.confidence) && decide (d.confidence ≤ 1) &&
  decide (0 ≤ d.risk_score) && decide (d.risk_score ≤ 10) &&
  decide (d.rationale_summary.length ≤ 3)

/-- Constructing a `Decision(...)` at runtime: pydantic validates the
fields and raises a `ValidationError` when a bound is violated. -/
def mkDecision (d : Decision) : Except PyError Decision :=
  if d.isValid then Except.ok d else Except.error PyError.validationError

/-- Default used to read below an `isSome` guard (never observed). -/
def defaultDecision : Decision :=
  { decision_type := DecisionType.APPROVE, recommended_action := ""
    confidence := 0, risk_score := 0, rationale_summary := [] }

/-- The `sd.decision` payload of a bucket member. -/
def decOf (sd : SpecialistDecision) : Decision :=
  sd.decision.getD defaultDecision

/-- The `sd.signal` payload of a bucket member. -/
def sigOf (sd : SpecialistDecision) : IntelligenceSignal :=
  sd.signal.getD { source_agent := "", summary_points := [], confidence := 0, inferred_risk_delta := 0 }

/-- The `sd.fault` payload of a bucket member. -/
def fltOf (sd : SpecialistDecision) : AgentFault :=
  sd.fault.getD { fault_type := "", agent := "", step_id := "", message := "" }

/-- Python `int(q)`: truncation toward zero.  On a normalized
rational this is the t-division of numerator by denominator. -/
def pyTrunc (q : ℚ) : ℤ :=
  Int.tdiv q.num (q.den : ℤ)

/-- Python `max` over a nonempty list of ints (0 on `[]`, unreachable). -/
def pyMaxInt : List ℤ → ℤ
  | [] => 0
  | x :: xs => xs.foldl max x

/-- Python `min(xs, key=k)`: first element with minimal key. -/
def pyMinBy (k : SpecialistDecision → ℕ) : List SpecialistDecision → SpecialistDecision
  | [] => { agent := "" }
  | x :: xs => xs.foldl (fun b y => if k y < k b then y else b) x

/-- Python `xs[0] if xs else default` for string lists. -/
def headOr (l : List String) (d : String) : String :=
  match l with
  | [] => d
  | x :: _ => x

/-- Stable ascending insertion used to model Python `sorted` on ints. -/
def insertSorted (x : ℤ) : List ℤ → List ℤ
  | [] => [x]
  | y :: ys => if x < y then x :: y :: ys else y :: insertSorted x ys

/-- Python `sorted` on a list of ints (stable, ascending). -/
def pySorted (l : List ℤ) : List ℤ :=
  l.foldr insertSorted []

/-- The `decided` bucket: entries whose `decision` field is set
(`decision_aggregator.py` line 14). -/
def validBucket (sds : List SpecialistDecision) : List SpecialistDecision :=
  sds.filter (fun sd => sd.decision.isSome)

/-- The `signaled` bucket (`decision_aggregator.py` line 15). -/
def signalBucket (sds : List SpecialistDecision) : List SpecialistDecision :=
  sds.filter (fun sd => sd.signal.isSome)

/-- The `faulted` bucket (`decision_aggregator.py` line 16). -/
def faultBucket (sds : List SpecialistDecision) : List SpecialistDecision :=
  sds.filter (fun sd => sd.fault.isSome)

/-- Which of the three top-level branches of
`DecisionAggregator.aggregate` the control flow takes, exactly as the
code tests them: degraded when `len(valid_sds) < 2 and signals`, total
failure when additionally `not valid_sds`, standard otherwise. -/
inductive AggBranch where
  | degraded
  | total_failure
  | standard
deriving DecidableEq, Repr

/-- Branch selection of `DecisionAggregator.aggregate`. -/
def aggregate_branch (sds : List SpecialistDecision) : AggBranch :=
  if (validBucket sds).length < 2 ∧ signalBucket sds ≠ [] then
    AggBranch.degraded
  else if validBucket sds = [] then
    AggBranch.total_failure
  else
    AggBranch.standard

/-- Degraded-intelligence branch of `aggregate`
(`decision_aggregator.py` lines 18-50).  Note the code computes
`0.3 + 0.1 * len(signals)` with no upper cap; the pydantic bound
`confidence <= 1` on `Decision` then rejects the construction when
there are eight or more signals. -/
def degradedPath (sds : List SpecialistDecision) : Except PyError CompositeDecision :=
  let valid_sds := validBucket sds
  let signals := signalBucket sds
  let base_risk : ℚ :=
    if valid_sds ≠ [] then
      ((valid_sds.map (fun sd => ((decOf sd).risk_score : ℚ))).sum) / (valid_sds.length : ℚ)
    else 3
  let risk_delta : ℤ := (signals.map (fun s => (sigOf s).inferred_risk_delta)).sum
  let final_risk : ℤ := max 1 (min 7 (pyTrunc (base_risk + (risk_delta : ℚ))))
  let rationale : List String :=
    (match valid_sds with
     | [] => []
     | sd :: _ => ["Primary: " ++ (decOf sd).recommended_action]) ++
    signals.map (fun s =>
      "Signal (" ++ s.agent ++ "): " ++ String.intercalate "; " (sigOf s).summary_points)
  match mkDecision
      { decision_type := DecisionType.MODIFY
        recommended_action := "Adaptive Response (Salvaged Intelligence)"
        confidence := 3/10 + (1/10) * (signals.length : ℚ)
        risk_score := final_risk
        rationale_summary := rationale.take 3 } with
  | Except.error e => Except.error e
  | Except.ok pd =>
      Except.ok
        { primary_decision := pd
          conflicts := []
          consensus_score := 2/5
          specialist_decisions := sds }

/-- Total-failure branch of `aggregate`
(`decision_aggregator.py` lines 52-65). -/
def totalFailurePath (sds : List SpecialistDecision) : Except PyError CompositeDecision :=
  let faults := faultBucket sds
  let fault_lines := (faults.take 3).map (fun f => "Fault: " ++ (fltOf f).message.take 50 ++ "...")
  let rationale := if fault_lines = [] then ["No Data"] else fault_lines
  match mkDecision
      { decision_type := DecisionType.MODIFY
        recommended_action := "System Degraded: Proceeding with conservative baseline."
        confidence := 0
        risk_score := 0
        rationale_summary := rationale } with
  | Except.error e => Except.error e
  | Except.ok pd =>
      Except.ok
        { primary_decision := pd
          conflicts := []
          consensus_score := 0
          specialist_decisions := sds }

/-- Standard branch of `aggregate` (`decision_aggregator.py` lines
67-145).  The code computes `median_risk` but never assigns the local
`final_risk` outside the quorum case, and never assigns
`low_risk_count` at all, so every run of this branch raises a
`NameError`: at `if final_risk >= 7` (line 106) when fewer than two
qualifying aborts exist, and at `low_risk_count / len(valid_sds)`
(line 143) after fully constructing the primary decision when the
abort quorum holds. -/
def standardPath (sds : List SpecialistDecision) : Except PyError CompositeDecision :=
  let valid_sds := validBucket sds
  let faults := faultBucket sds
  let risks := pySorted (valid_sds.map (fun sd => (decOf sd).risk_score))
  let mid := risks.length / 2
  let _median_risk : ℚ :=
    ((risks.getD mid 0 : ℚ) + (risks.getD (risks.length - 1 - mid) 0 : ℚ)) / 2
  let abort_candidates :=
    valid_sds.filter (fun sd => (decOf sd).decision_type = DecisionType.ABORT)
  let valid_aborts :=
    abort_candidates.filter (fun sd =>
      8 ≤ (decOf sd).risk_score ∧ (6 : ℚ)/10 ≤ (decOf sd).confidence)
  if 2 ≤ valid_aborts.length then
    let final_risk : ℤ := pyMaxInt (valid_aborts.map (fun sd => (decOf sd).risk_score))
    let candidates :=
      valid_sds.filter (fun sd => (decOf sd).decision_type = DecisionType.ABORT)
    let candidates := if candidates = [] then valid_sds else candidates
    let best_sd := pyMinBy (fun sd => ((decOf sd).risk_score - final_risk).natAbs) candidates
    let rationale :=
      valid_sds.map (fun sd =>
        "[" ++ sd.agent ++ "] Risk " ++ toString (decOf sd).risk_score ++ ": " ++
          headOr (decOf sd).rationale_summary "")
    let rationale :=
      if faults = [] then rationale
      else rationale ++ ["Warning: " ++ toString faults.length ++ " agents incurred faults."]
    match mkDecision
        { decision_type := DecisionType.ABORT
          recommended_action := (decOf best_sd).recommended_action
          confidence := ((valid_sds.map (fun sd => (decOf sd).confidence)).sum) / (valid_sds.length : ℚ)
          risk_score := final_risk
          rationale_summary := rationale.take 3
          assumptions := (decOf best_sd).assumptions } with
    | Except.error e => Except.error e
    | Except.ok _ => Except.error (PyError.nameError "low_risk_count")
  else
    Except.error (PyError.nameError "final_risk")

/-- `DecisionAggregator.aggregate` of `core/decision_aggregator.py`. -/
def DecisionAggregator.aggregate (sds : List SpecialistDecision) : Except PyError CompositeDecision :=
  match aggregate_branch sds with
  | AggBranch.degraded => degradedPath sds
  | AggBranch.total_failure => totalFailurePath sds
  | AggBranch.standard => standardPath sds

/-- `PlanStep` of `core/schemas.py`. -/
structure PlanStep where
  step_id : String
  agent : String
  objective : String
  priority : ℤ := 1
deriving DecidableEq, Repr

/-- `ExecutionPlan` of `core/schemas.py` (`plan_id`/`context` omitted:
the coordinator logic under verification reads only `steps`). -/
structure ExecutionPlan where
  steps : List PlanStep
deriving DecidableEq, Repr

/-- `ValidationResult` of `core/schemas.py`. -/
structure ValidationResult where
  valid : Bool
  violation : Option String := none
deriving DecidableEq, Repr

/-- `SimulationTurn` of `core/schemas.py`. -/
structure SimulationTurn where
  turn : ℤ
  actor : String
  action : String
  outcome : String
  validation : ValidationResult
deriving DecidableEq, Repr

/-- `SimulationResult` of `core/schemas.py`. -/
structure SimulationResult where
  final_state : List (String × String)
  outcome : String
  stability_score : ℚ
  turn_count : ℕ
  history : List SimulationTurn
deriving DecidableEq, Repr

/-- `JudgmentResult` of `core/schemas.py`. -/
structure JudgmentResult where
  is_approved : Bool
  feedback : String
  strategic_analysis : String := ""
  final_decision : Option Decision := none
deriving DecidableEq, Repr

/-- Nodes of the LangGraph workflow built in
`orchestration/graph.py` (`build_graph`), plus the END sentinel. -/
inductive GNode where
  | plan
  | specialists
  | aggregate
  | constraint
  | judgment
  | simulation_run
  | finalize
  | graph_end
deriving DecidableEq, Repr

/-- The unconditional edges registered by `build_graph`
(`orchestration/graph.py` lines 307-311 and 329-330).  The only
conditional routing is `check_judgment_loop` out of `judgment`. -/
def static_edge : GNode → Option GNode
  | GNode.plan => some GNode.specialists
  | GNode.specialists => some GNode.aggregate
  | GNode.aggregate => some GNode.constraint
  | GNode.constraint => some GNode.judgment
  | GNode.judgment => none
  | GNode.simulation_run => some GNode.finalize
  | GNode.finalize => some GNode.graph_end
  | GNode.graph_end => none

/-- `node_plan` (`orchestration/graph.py` lines 56-73): on a planner
exception it returns only a SYSTEM_ERROR status and no plan; on
success it returns the plan and no status. -/
def node_plan (planner_outcome : Except String ExecutionPlan) :
    Option ExecutionPlan × Option RunStatus :=
  match planner_outcome with
  | Except.error _ => (none, some RunStatus.SYSTEM_ERROR)
  | Except.ok p => (some p, none)

/-- Whether the first character list starts the second. -/
def startsWithChars : List Char → List Char → Bool
  | [], _ => true
  | _ :: _, [] => false
  | a :: as, b :: bs => a == b && startsWithChars as bs

/-- Whether the first character list occurs inside the second. -/
def hasSubChars (pat : List Char) : List Char → Bool
  | [] => pat.isEmpty
  | b :: bs => startsWithChars pat (b :: bs) || hasSubChars pat bs

/-- Python `pattern in s` on upper-cased agent names. -/
def strContains (s pattern : String) : Bool :=
  hasSubChars pattern.toList s.toList

/-- Whether `run_step` resolves the step to a concrete agent
(`orchestration/graph.py` lines 84-88). -/
def isKnownAgent (agent_name : String) : Bool :=
  strContains agent_name "SECURITY" || strContains agent_name "TECHNOLOGY" ||
    strContains agent_name "ECONOMICS"

/-- `run_step` inside `node_specialists` (`orchestration/graph.py`
lines 83-122).  `agentRun` models the specialist agent call together
with parsing its output into a `Decision`: an exception anywhere in
that `try` block is the `.error` case.  Every outcome — success,
error, unknown agent — is returned as a `SpecialistDecision` whose
`decision` field is set and whose `fault` and `signal` fields are
left unset. -/
def run_step (agentRun : PlanStep → Except String Decision) (step : PlanStep) :
    SpecialistDecision :=
  let agent_name := step.agent.toUpper
  let decision : Decision :=
    if isKnownAgent agent_name then
      match agentRun step with
      | Except.ok d => d
      | Except.error e =>
          { decision_type := DecisionType.ABORT
            recommended_action := "Agent Error"
            confidence := 0
            risk_score := 10
            rationale_summary := [e] }
    else
      { decision_type := DecisionType.ABORT
        recommended_action := "Unknown Agent"
        confidence := 0
        risk_score := 10
        rationale_summary := ["Configuration Error"] }
  { agent := agent_name, decision := some decision }

/-- `node_specialists` (`orchestration/graph.py` lines 75-130): the
node reads `state["plan"]` by subscript (line 77).  On the
planner-failure path the `plan` key is never written to the graph
state (`node_plan` returns only a status, and the initial state in
`manager_run` does not set it), so the subscript raises a `KeyError`
and the run crashes before any specialist evaluation is dispatched —
modelled here by the `none` case.  With a present plan, an empty step
list produces no results (`if not plan.steps: return []`); otherwise
one `run_step` result per plan step. -/
def node_specialists (plan : Option ExecutionPlan)
    (agentRun : PlanStep → Except String Decision) :
    Except PyError (List SpecialistDecision) :=
  match plan with
  | none => Except.error (PyError.keyError "plan")
  | some p => Except.ok (if p.steps = [] then [] else p.steps.map (run_step agentRun))

/-- `check_judgment_loop` (`orchestration/graph.py` lines 313-326). -/
def check_judgment_loop (status : Option RunStatus) (judgment_result : JudgmentResult)
    (retry_count : ℕ) : GNode :=
  if status = some RunStatus.SYSTEM_ERROR then GNode.finalize
  else if judgment_result.is_approved then GNode.simulation_run
  else if retry_count ≤ 2 then GNode.constraint
  else GNode.finalize

/-- The slice of `CoordinatorState` the constraint/judgment retry loop
reads and writes, plus a log of the `judgment_feedback` value passed
to each `node_constraint` invocation. -/
structure LoopState where
  judgment_feedback : Option String := none
  retry_count : ℕ := 0
  status : Option RunStatus := none
  judgment_result : Option JudgmentResult := none
  constraint_inputs : List (Option String) := []
deriving DecidableEq, Repr

/-- One constraint-then-judgment iteration: `node_constraint` reads
`state.get("judgment_feedback")` (logged here), then `node_judgment`
(`orchestration/graph.py` lines 184-188) stores the judgment result,
sets `judgment_feedback` to the rejection feedback (None when
approved) and increments `retry_count`. -/
def loop_iteration (s : LoopState) (r : JudgmentResult) : LoopState :=
  { s with
    constraint_inputs := s.constraint_inputs ++ [s.judgment_feedback]
    judgment_feedback := if r.is_approved then none else some r.feedback
    retry_count := s.retry_count + 1
    judgment_result := some r }

/-- Driver of the constraint/judgment loop: consumes successive
arbiter outputs, routing with `check_judgment_loop` after each
judgment, until the router leaves the loop or the supplied outputs
run out (in which case the pending node is `judgment`). -/
def run_loop (s : LoopState) : List JudgmentResult → LoopState × GNode
  | [] => (s, GNode.judgment)
  | r :: rest =>
    let s2 := loop_iteration s r
    match check_judgment_loop s2.status r s2.retry_count with
    | GNode.constraint => run_loop s2 rest
    | g => (s2, g)

/-- The fallback decision `node_finalize` substitutes when no judgment
final decision exists (`orchestration/graph.py` lines 270-276). -/
def fallbackDecision : Decision :=
  { decision_type := DecisionType.ABORT
    recommended_action := "System Failure"
    confidence := 0
    risk_score := 10
    rationale_summary := ["Graph did not reach a decision"] }

/-- Status and final decision computed by `node_finalize`
(`orchestration/graph.py` lines 261-294): when the judgment carried a
`final_decision` the status defaults to SUCCESS, otherwise to
SYSTEM_ERROR; an explicitly recorded status wins in both cases. -/
def node_finalize (status : Option RunStatus) (j : Option JudgmentResult) :
    RunStatus × Decision :=
  match (match j with | some jr => jr.final_decision | none => none) with
  | none => (status.getD RunStatus.SYSTEM_ERROR, fallbackDecision)
  | some d => (status.getD RunStatus.SUCCESS, d)

/-- The `for i in range(max_turns)` loop body outcome tracking of
`node_simulation_run` (`orchestration/graph.py` lines 213-245): a
successful simulation-agent call sets `outcome` to COMPLETED and
continues; an exception sets a CRASH outcome and breaks. -/
def sim_loop (simRun : ℕ → Except String Unit) : ℕ → ℕ → String → String
  | 0, _, outcome => outcome
  | n + 1, i, _ =>
    match simRun i with
    | Except.ok _ => sim_loop simRun n (i + 1) "COMPLETED"
    | Except.error e => "CRASH: " ++ e

/-- `node_simulation_run` (`orchestration/graph.py` lines 190-259):
with no judgment final decision it only reports SYSTEM_ERROR; with
one it runs the turn loop and then constructs the `SimulationResult`
with `turn_count=max_turns`, `history=[]` and `stability_score`
still at its initial 1.0, whatever the loop did. -/
def node_simulation_run (judgment_result : JudgmentResult)
    (simRun : ℕ → Except String Unit) (max_turns : ℕ)
    (initial_state : List (String × String)) :
    Option SimulationResult × Option RunStatus :=
  match judgment_result.final_decision with
  | none => (none, some RunStatus.SYSTEM_ERROR)
  | some _ =>
      let outcome := sim_loop simRun max_turns 0 "IN_PROGRESS"
      (some
        { final_state := initial_state
          outcome := outcome
          stability_score := 1
          turn_count := max_turns
          history := [] },
       some RunStatus.SUCCESS)

/-- Equality on `Except` results is decidable componentwise. -/
instance {ε α : Type} [DecidableEq ε] [DecidableEq α] : DecidableEq (Except ε α) := fun a b =>
  match a, b with
  | Except.ok x, Except.ok y =>
      if h : x = y then isTrue (by rw [h]) else isFalse (by intro hc; cases hc; exact h rfl)
  | Except.error x, Except.error y =>
      if h : x = y then isTrue (by rw [h]) else isFalse (by intro hc; cases hc; exact h rfl)
  | Except.ok _, Except.error _ => isFalse (by intro hc; cases hc)
  | Except.error _, Except.ok _ => isFalse (by intro hc; cases hc)

/-- Decided specialist result with the given type, risk and confidence. -/
def sdDec (a : String) (t : DecisionType) (r : ℤ) (c : ℚ) : SpecialistDecision :=
  { agent := a
    decision := some
      { decision_type := t, recommended_action := "act " ++ a, confidence := c
        risk_score := r, rationale_summary := ["rationale " ++ a] } }

/-- Signal-only specialist result with the given risk delta. -/
def sdSig (a : String) (delta : ℤ) : SpecialistDecision :=
  { agent := a
    signal := some
      { source_agent := a, summary_points := [], confidence := 1/2, inferred_risk_delta := delta } }

/-- Fault-only specialist result with the given message. -/
def sdFlt (a : String) (m : String) : SpecialistDecision :=
  { agent := a
    fault := some { fault_type := "TIMEOUT", agent := a, step_id := "s1", message := m } }

/-- Two decided results, no signals: the standard aggregation path. -/
def aggTwoDecided : List SpecialistDecision :=
  [sdDec "SECURITY" DecisionType.APPROVE 5 (9/10), sdDec "TECHNOLOGY" DecisionType.REJECT 6 (4/5)]

/-- Even count of decided results without an abort quorum. -/
def aggEvenDecided : List SpecialistDecision :=
  [sdDec "SECURITY" DecisionType.APPROVE 2 (9/10), sdDec "ECONOMICS" DecisionType.APPROVE 4 (4/5)]

/-- Odd count of decided results without an abort quorum. -/
def aggOddDecided : List SpecialistDecision :=
  [sdDec "SECURITY" DecisionType.APPROVE 2 (9/10), sdDec "ECONOMICS" DecisionType.APPROVE 4 (4/5),
   sdDec "TECHNOLOGY" DecisionType.MODIFY 5 (3/5)]

/-- Two qualifying aborts (risk >= 8, confidence >= 0.6) among three
decided results: the abort-quorum case of the standard path. -/
def aggQuorum : List SpecialistDecision :=
  [sdDec "SECURITY" DecisionType.ABORT 9 (9/10), sdDec "TECHNOLOGY" DecisionType.ABORT 8 (7/10),
   sdDec "ECONOMICS" DecisionType.APPROVE 2 (9/10)]

/-- Exactly one high-risk high-confidence abort beside an approve. -/
def aggSoloAbort : List SpecialistDecision :=
  [sdDec "SECURITY" DecisionType.ABORT 9 (9/10), sdDec "ECONOMICS" DecisionType.APPROVE 2 (1/2)]

/-- Eight signal-only results, no decided results. -/
def aggEightSignals : List SpecialistDecision :=
  [sdSig "S1" 0, sdSig "S2" 0, sdSig "S3" 0, sdSig "S4" 0,
   sdSig "S5" 0, sdSig "S6" 0, sdSig "S7" 0, sdSig "S8" 0]

/-- The degraded-path example of the specification: two signals with
risk deltas +2 and +1 and no decided baseline. -/
def aggTwoSignals : List SpecialistDecision :=
  [sdSig "A" 2, sdSig "B" 1]

/-- Three fault-only results: the total-failure path. -/
def aggThreeFaults : List SpecialistDecision :=
  [sdFlt "SECURITY" "first failure message", sdFlt "TECHNOLOGY" "second failure message",
   sdFlt "ECONOMICS" "third failure message"]

/-- A rejected judgment result that nevertheless carries a final
decision (the judgment arbiter schema allows this combination). -/
def rejectedJudgment (fb : String) : JudgmentResult :=
  { is_approved := false
    feedback := fb
    final_decision := some
      { decision_type := DecisionType.APPROVE, recommended_action := "proceed", confidence := 1
        risk_score := 1, rationale_summary := ["fine"] } }

/-- A plan step naming a role no dispatch branch recognizes. -/
def unknownStep : PlanStep :=
  { step_id := "s1", agent := "astrology_agent", objective := "o" }

/-- A plan step resolving to the security specialist. -/
def securityStep : PlanStep :=
  { step_id := "s2", agent := "security_analysis_agent", objective := "o" }

/-- An evaluator model that always raises. -/
def failingAgent : PlanStep → Except String Decision :=
  fun _ => Except.error "agent raised"

/-- A crashing simulation collaborator: the second turn raises. -/
def crashingSim : ℕ → Except String Unit :=
  fun i => if i = 1 then Except.error "unparseable step" else Except.ok ()

/-- Concrete simulation result produced at the witness input. -/
def c10result : SimulationResult :=
  { final_state := [], outcome := "CRASH: unparseable step", stability_score := 1
    turn_count := 5, history := [] }

/-- C1: the claim says `aggregate` is total and never raises.  The
code refutes this: with two decided results (and on every other input
reaching the standard path) the Python function raises a `NameError`,
because the local `final_risk` read at `if final_risk >= 7` is never
assigned on the non-quorum path.  The embedded evaluation at a
concrete two-decided input yields that error instead of a
`CompositeDecision`. -/
theorem aggregate_not_total :
    DecisionAggregator.aggregate aggTwoDecided =
      Except.error (PyError.nameError "final_risk") := by
  decide

/-- C2: the claim says the returned risk is the median of decided risk
scores whenever at least two decided results exist and no abort quorum
holds.  The code never returns on that path: `median_risk` is computed
but never assigned to `final_risk`, and the read of the unassigned
`final_risk` raises a `NameError` for both an even and an odd count of
decided results. -/
theorem aggregate_median_never_returned :
    DecisionAggregator.aggregate aggEvenDecided =
        Except.error (PyError.nameError "final_risk") ∧
    DecisionAggregator.aggregate aggOddDecided =
        Except.error (PyError.nameError "final_risk") := by
  with_unfolding_all decide

/-- C3: the claim says a two-abort quorum yields an ABORT decision
with the maximal qualifying risk, and a solo abort follows the
standard path to a returned decision.  The code returns in neither
case: with the quorum the primary decision is fully constructed and
then the unassigned local `low_risk_count` raises a `NameError` in
the `consensus_score` expression; with a solo abort the unassigned
`final_risk` raises first. -/
theorem aggregate_abort_quorum_raises :
    DecisionAggregator.aggregate aggQuorum =
        Except.error (PyError.nameError "low_risk_count") ∧
    DecisionAggregator.aggregate aggSoloAbort =
        Except.error (PyError.nameError "final_risk") := by
  with_unfolding_all decide

/-- C4: the claim says degraded-path confidence is `0.3 + 0.1 x
number of signals` capped at 1.0.  The code applies no cap: with
eight signals it computes 1.1 and the pydantic bound `confidence <= 1`
on `Decision` rejects the construction, so `aggregate` raises instead
of returning a capped value.  Below the missing cap the degraded path
behaves as claimed, shown here on the two-signal example (deltas +2
and +1): MODIFY, risk `clamp(3+3,1,7) = 6`, confidence 0.5,
consensus 0.4. -/
theorem degraded_confidence_uncapped :
    DecisionAggregator.aggregate aggEightSignals = Except.error PyError.validationError ∧
    (DecisionAggregator.aggregate aggTwoSignals).toOption.map
        (fun cd => (cd.primary_decision.decision_type, cd.primary_decision.risk_score,
          cd.primary_decision.confidence, cd.consensus_score)) =
      some (DecisionType.MODIFY, 6, 1/2, 2/5) := by
  with_unfolding_all decide

/-- C6: the claim says that after `retryBound+1 = 3` unapproved
judgment attempts the run terminates with a REJECTED status and never
SUCCESS.  The embedded loop shows the feedback threading (the
constraint call at iteration K+1 receives the rejection feedback of
iteration K) and the termination after three attempts — but
`node_finalize` then defaults the status to SUCCESS because the
rejected judgment carries a `final_decision` and no status was ever
recorded; no REJECTED status exists in `RunStatus` at all. -/
theorem retry_exhaustion_finalizes_success :
    (run_loop {} [rejectedJudgment "too risky", rejectedJudgment "still risky",
        rejectedJudgment "unacceptable"]).2 = GNode.finalize ∧
    (run_loop {} [rejectedJudgment "too risky", rejectedJudgment "still risky",
        rejectedJudgment "unacceptable"]).1.retry_count = 3 ∧
    (run_loop {} [rejectedJudgment "too risky", rejectedJudgment "still risky",
        rejectedJudgment "unacceptable"]).1.constraint_inputs =
      [none, some "too risky", some "still risky"] ∧
    (node_finalize
        (run_loop {} [rejectedJudgment "too risky", rejectedJudgment "still risky",
          rejectedJudgment "unacceptable"]).1.status
        (run_loop {} [rejectedJudgment "too risky", rejectedJudgment "still risky",
          rejectedJudgment "unacceptable"]).1.judgment_result).1 = RunStatus.SUCCESS := by
  decide

/-- Helper: the total-failure branch evaluates to an explicit
composite decision. -/
theorem totalFailurePath_eq (sds : List SpecialistDecision) :
    totalFailurePath sds =
      Except.ok
        { primary_decision :=
            { decision_type := DecisionType.MODIFY
              recommended_action := "System Degraded: Proceeding with conservative baseline."
              confidence := 0
              risk_score := 0
              rationale_summary :=
                if (((faultBucket sds).take 3).map
                    (fun f => "Fault: " ++ (fltOf f).message.take 50 ++ "...")) = [] then
                  ["No Data"]
                else
                  ((faultBucket sds).take 3).map
                    (fun f => "Fault: " ++ (fltOf f).message.take 50 ++ "...") }
          conflicts := []
          consensus_score := 0
          specialist_decisions := sds } := by
  have hlen :
      ((((faultBucket sds).take 3).map
        (fun f => "Fault: " ++ (fltOf f).message.take 50 ++ "..."))).length ≤ 3 := by
    rw [List.length_map, List.length_take]
    exact min_le_left _ _
  unfold totalFailurePath mkDecision
  have hval :
      Decision.isValid
        { decision_type := DecisionType.MODIFY
          recommended_action := "System Degraded: Proceeding with conservative baseline."
          confidence := 0
          risk_score := 0
          rationale_summary :=
            if (((faultBucket sds).take 3).map
                (fun f => "Fault: " ++ (fltOf f).message.take 50 ++ "...")) = [] then
              ["No Data"]
            else
              ((faultBucket sds).take 3).map
                (fun f => "Fault: " ++ (fltOf f).message.take 50 ++ "...") } = true := by
    simp only [Decision.isValid, Bool.and_eq_true, decide_eq_true_eq]
    refine ⟨⟨⟨⟨by norm_num, by norm_num⟩, by norm_num⟩, by norm_num⟩, ?_⟩
    split
    · simp
    · exact hlen
  simp only [hval, if_true]

/-- C5: on the total-failure path (no decided results, no signals) the
aggregator returns a composite decision whose primary decision is
MODIFY (never ABORT) with risk 0, confidence 0, consensus 0, and a
rationale of at most three truncated fault messages (one `No Data`
placeholder line when no faults exist either). -/
theorem total_failure_path_conservative (sds : List SpecialistDecision)
    (hv : validBucket sds = []) (hs : signalBucket sds = []) :
    ∃ cd, DecisionAggregator.aggregate sds = Except.ok cd ∧
      cd.primary_decision.decision_type = DecisionType.MODIFY ∧
      cd.primary_decision.decision_type ≠ DecisionType.ABORT ∧
      cd.primary_decision.risk_score = 0 ∧
      cd.primary_decision.confidence = 0 ∧
      cd.consensus_score = 0 ∧
      cd.primary_decision.rationale_summary.length ≤ 3 ∧
      (faultBucket sds ≠ [] →
        cd.primary_decision.rationale_summary =
          ((faultBucket sds).take 3).map
            (fun f => "Fault: " ++ (fltOf f).message.take 50 ++ "...")) := by
  have hbr : aggregate_branch sds = AggBranch.total_failure := by
    simp [aggregate_branch, hv, hs]
  have hagg : DecisionAggregator.aggregate sds = totalFailurePath sds := by
    unfold DecisionAggregator.aggregate
    rw [hbr]
  rw [hagg, totalFailurePath_eq]
  refine ⟨_, rfl, rfl, fun h => DecisionType.noConfusion h, rfl, rfl, rfl, ?_, ?_⟩
  · show (if _ = [] then ["No Data"] else _).length ≤ 3
    split
    · simp
    · rw [List.length_map, List.length_take]
      exact min_le_left _ _
  · intro hfz
    show (if _ = [] then ["No Data"] else _) = _
    rw [if_neg]
    intro hmap
    rcases hmape : faultBucket sds with - | ⟨f, fs⟩
    · exact hfz hmape
    · rw [hmape] at hmap
      simp at hmap

/-- C5 witness: three faulted results and nothing else — the
aggregator returns the conservative MODIFY composite. -/
theorem total_failure_path_conservative_witness :
    ∃ cd, DecisionAggregator.aggregate aggThreeFaults = Except.ok cd ∧
      cd.primary_decision.decision_type = DecisionType.MODIFY ∧
      cd.primary_decision.decision_type ≠ DecisionType.ABORT ∧
      cd.primary_decision.risk_score = 0 ∧
      cd.primary_decision.confidence = 0 ∧
      cd.consensus_score = 0 ∧
      cd.primary_decision.rationale_summary.length ≤ 3 ∧
      (faultBucket aggThreeFaults ≠ [] →
        cd.primary_decision.rationale_summary =
          ((faultBucket aggThreeFaults).take 3).map
            (fun f => "Fault: " ++ (fltOf f).message.take 50 ++ "...")) :=
  total_failure_path_conservative aggThreeFaults (by rfl) (by rfl)

/-- C7 counterexample: on a planner failure `node_plan` does record the
system-error status, but the workflow's edge out of the planning node
is the unconditional edge to the specialists node — not a direct
transition to finalize as the claim states. -/
theorem plan_failure_not_direct_to_finalize :
    node_plan (Except.error "planner raised") = (none, some RunStatus.SYSTEM_ERROR) ∧
    static_edge GNode.plan = some GNode.specialists ∧
    static_edge GNode.plan ≠ some GNode.finalize := by
  refine ⟨rfl, rfl, ?_⟩
  intro h
  simp [static_edge] at h

/-- C7 amended: a planner failure records a SYSTEM_ERROR status and
writes no plan, but the coordinator does not transition directly from
planning to finalize: the graph's unconditional edge sends the run to
the specialists node, whose subscript read of the absent `plan` state
key raises a `KeyError` and crashes the run before any specialist
evaluation is dispatched (so no well-formed final report is produced
either). -/
theorem plan_failure_flows_through_specialists (e : String)
    (f : PlanStep → Except String Decision) :
    node_plan (Except.error e) = (none, some RunStatus.SYSTEM_ERROR) ∧
    static_edge GNode.plan = some GNode.specialists ∧
    node_specialists none f = Except.error (PyError.keyError "plan") :=
  ⟨rfl, rfl, rfl⟩

/-- C7 witness: the amended statement at a concrete planner error. -/
theorem plan_failure_flows_through_specialists_witness :
    node_plan (Except.error "llm timeout") = (none, some RunStatus.SYSTEM_ERROR) ∧
    static_edge GNode.plan = some GNode.specialists ∧
    node_specialists none failingAgent = Except.error (PyError.keyError "plan") :=
  plan_failure_flows_through_specialists "llm timeout" failingAgent

/-- C8 counterexample: when the security evaluator raises, the
recorded `SpecialistDecision` is not Fault-tagged — its `fault` field
is unset (the error is encoded in the `decision` field instead). -/
theorem evaluator_fault_not_fault_tagged :
    (run_step failingAgent securityStep).fault = none ∧
    (run_step failingAgent securityStep).signal = none ∧
    (run_step failingAgent securityStep).decision ≠ none := by
  with_unfolding_all decide

/-- C8 amended: for every plan step whose evaluator call fails (raises
or returns malformed data) or that names an unknown role, the
coordinator records a `SpecialistDecision` whose `decision` field is
an ABORT decision with risk 10 and confidence 0 and whose `fault` and
`signal` fields are unset; the failure is absorbed into the result
list rather than propagated. -/
theorem evaluator_failure_absorbed_as_abort
    (f : PlanStep → Except String Decision) (step : PlanStep)
    (h : isKnownAgent step.agent.toUpper = false ∨ ∃ e, f step = Except.error e) :
    (run_step f step).fault = none ∧
    (run_step f step).signal = none ∧
    ∃ d, (run_step f step).decision = some d ∧
      d.decision_type = DecisionType.ABORT ∧ d.risk_score = 10 ∧ d.confidence = 0 := by
  refine ⟨rfl, rfl, ?_⟩
  unfold run_step
  rcases h with hk | ⟨e, he⟩
  · simp only [hk, Bool.false_eq_true, if_false]
    exact ⟨_, rfl, rfl, rfl, rfl⟩
  · by_cases hk2 : isKnownAgent step.agent.toUpper
    · simp only [hk2, if_true, he]
      exact ⟨_, rfl, rfl, rfl, rfl⟩
    · simp only [hk2, Bool.false_eq_true, if_false]
      exact ⟨_, rfl, rfl, rfl, rfl⟩

/-- C8 witness: the amended statement at a concrete raising evaluator. -/
theorem evaluator_failure_absorbed_as_abort_witness :
    (run_step failingAgent securityStep).fault = none ∧
    (run_step failingAgent securityStep).signal = none ∧
    ∃ d, (run_step failingAgent securityStep).decision = some d ∧
      d.decision_type = DecisionType.ABORT ∧ d.risk_score = 10 ∧ d.confidence = 0 :=
  evaluator_failure_absorbed_as_abort failingAgent securityStep
    (Or.inr ⟨"agent raised", rfl⟩)

/-- Helper: every result of `run_step` carries a decision and no fault
or signal. -/
theorem run_step_decision_only (f : PlanStep → Except String Decision) (s : PlanStep) :
    (run_step f s).decision.isSome = true ∧
    (run_step f s).fault = none ∧ (run_step f s).signal = none :=
  ⟨rfl, rfl, rfl⟩

/-- C9 counterexample: a coordinator run whose plan has zero steps
produces an empty specialist list, on which the aggregator does take
the total-failure branch — refuting the claim that this branch is
never taken on coordinator-driven runs. -/
theorem empty_plan_takes_total_failure_branch :
    node_specialists (some { steps := [] }) failingAgent = Except.ok [] ∧
    aggregate_branch [] = AggBranch.total_failure := by
  exact ⟨rfl, rfl⟩

/-- C9 amended: when the specialists node executes on a present plan,
every `SpecialistDecision` it produces has its decision field
populated and its fault and signal fields unset; consequently the
aggregator's degraded-intelligence branch is never taken on
coordinator-produced input, and the total-failure branch is taken
exactly when the plan has zero steps (the phase then produces no
results); with at least one plan step neither branch is taken.  (A
run whose planner failed never reaches aggregation at all: the
specialists node crashes on the absent plan key, see C7.) -/
theorem specialists_results_decision_only (p : ExecutionPlan)
    (f : PlanStep → Except String Decision) :
    ∃ results, node_specialists (some p) f = Except.ok results ∧
      (∀ sd ∈ results, sd.decision.isSome = true ∧ sd.fault = none ∧ sd.signal = none) ∧
      aggregate_branch results ≠ AggBranch.degraded ∧
      (aggregate_branch results = AggBranch.total_failure ↔ p.steps = []) := by
  by_cases hse : p.steps = []
  · refine ⟨[], ?_, ?_, ?_, ?_⟩
    · show Except.ok (if p.steps = [] then [] else List.map (run_step f) p.steps) =
        Except.ok ([] : List SpecialistDecision)
      rw [if_pos hse]
    · intro sd hsd
      simp at hsd
    · intro h
      exact AggBranch.noConfusion h
    · exact iff_of_true rfl hse
  · have hmem : ∀ sd ∈ List.map (run_step f) p.steps,
        sd.decision.isSome = true ∧ sd.fault = none ∧ sd.signal = none := by
      intro sd hsd
      obtain ⟨s, -, hs⟩ := List.mem_map.mp hsd
      rw [← hs]
      exact run_step_decision_only f s
    have hsig : signalBucket (List.map (run_step f) p.steps) = [] := by
      apply List.filter_eq_nil_iff.mpr
      intro a ha
      have h3 := (hmem a ha).2.2
      simp [h3]
    have hvalid : validBucket (List.map (run_step f) p.steps) = List.map (run_step f) p.steps :=
      List.filter_eq_self.mpr (fun a ha => (hmem a ha).1)
    have hne : List.map (run_step f) p.steps ≠ [] := by
      intro hmap
      rcases hp : p.steps with - | ⟨s, ss⟩
      · exact hse hp
      · rw [hp] at hmap
        simp at hmap
    have hbr : aggregate_branch (List.map (run_step f) p.steps) = AggBranch.standard := by
      unfold aggregate_branch
      rw [hsig, hvalid]
      simp only [ne_eq, not_true_eq_false, and_false, if_false]
      rw [if_neg hne]
    refine ⟨List.map (run_step f) p.steps, ?_, hmem, ?_, ?_⟩
    · show Except.ok (if p.steps = [] then [] else List.map (run_step f) p.steps) =
        Except.ok (List.map (run_step f) p.steps)
      rw [if_neg hse]
    · rw [hbr]
      intro h
      exact AggBranch.noConfusion h
    · rw [hbr]
      exact iff_of_false (fun h => AggBranch.noConfusion h) hse

/-- C9 witness: the amended statement at a concrete two-step plan. -/
theorem specialists_results_decision_only_witness :
    ∃ results,
      node_specialists (some { steps := [unknownStep, securityStep] }) failingAgent =
        Except.ok results ∧
      (∀ sd ∈ results, sd.decision.isSome = true ∧ sd.fault = none ∧ sd.signal = none) ∧
      aggregate_branch results ≠ AggBranch.degraded ∧
      (aggregate_branch results = AggBranch.total_failure ↔
        ({ steps := [unknownStep, securityStep] } : ExecutionPlan).steps = []) :=
  specialists_results_decision_only { steps := [unknownStep, securityStep] } failingAgent

/-- C10: whenever the resolution phase returns a `SimulationResult` at
all, that result reports `turn_count` equal to the configured
`max_turns`, an empty `history`, and `stability_score` 1.0 — for every
simulation collaborator behaviour, including one that raises mid-loop
and exits early with a CRASH outcome. -/
theorem simulation_result_constant_shape (jr : JudgmentResult)
    (simRun : ℕ → Except String Unit) (max_turns : ℕ)
    (ini : List (String × String)) (r : SimulationResult) (st : Option RunStatus)
    (h : node_simulation_run jr simRun max_turns ini = (some r, st)) :
    r.turn_count = max_turns ∧ r.history = [] ∧ r.stability_score = 1 := by
  unfold node_simulation_run at h
  cases hfd : jr.final_decision with
  | none =>
    rw [hfd] at h
    simp at h
  | some d =>
    rw [hfd] at h
    simp only [Prod.mk.injEq, Option.some.injEq] at h
    obtain ⟨hr, -⟩ := h
    rw [← hr]
    exact ⟨rfl, rfl, rfl⟩

/-- C10 witness: a five-turn configuration whose collaborator crashes
on the second turn still reports turn_count 5, empty history and
stability 1. -/
theorem simulation_result_constant_shape_witness :
    c10result.turn_count = 5 ∧ c10result.history = [] ∧ c10result.stability_score = 1 :=
  simulation_result_constant_shape (rejectedJudgment "x") crashingSim 5 [] c10result
    (some RunStatus.SUCCESS) (by rfl)
